import Mathlib

/-!
Shallow embedding of the workload simulation and monitoring engine of the
sqlserver-framework repository: the Workload Runner and Parameter Generator
(`src/core/workload_executor.py`), the Resource Sampler
(`src/core/resource_monitor.py`) and the Metric Sink
(`src/core/metrics_collector.py`), together with proofs of the behavioural
claims about them.

Conventions of the embedding:
* Python `dict` state is modelled by association lists or functions;
* `random.randint` / `random.choice` take an explicit entropy argument `r : ℕ`;
* clocks (`time.time`, `time.perf_counter`, `datetime.now`) are oracles
  `ℕ → ℤ` (sampled call by call) or explicit time arguments;
* a Python exception that the code catches is a value of an error type that
  the embedded control flow dispatches on exactly where the `except` sits.
-/

namespace SqlSim

/-- `core/models.py` `QueryParamGeneratorConfig`. -/
structure QueryParamGeneratorConfig where
  type : String
  table : Option String := none
  column : Option String := none
  sample_size : Option Nat := none
  start_days_ago : Option Int := none
  end_days_ago : Option Int := none
deriving DecidableEq, Repr

/-- `core/models.py` `QueryDefinition`. -/
structure QueryDefinition where
  name : String
  template : String
  weight : Nat := 1
  param_generators : List QueryParamGeneratorConfig := []
deriving DecidableEq, Repr

/-- `core/models.py` `WorkloadConfig`. -/
structure WorkloadConfig where
  name : String
  type : String
  enabled : Bool := true
  duration_seconds : Nat := 60
  concurrency : Nat := 1
  queries : List QueryDefinition := []
deriving DecidableEq, Repr

/-- `core/models.py` `MonitoringMetricConfig`. -/
structure MonitoringMetricConfig where
  name : String
  query : String
  frequency_seconds : Int := 60
deriving DecidableEq, Repr

/-- A fetched row, `dict(zip(columns, row))` in `adapters.py`, modelled as an
association list of column name to rendered value. -/
abbrev Row := List (String × String)

/-- A resolved query parameter value. -/
inductive ParamValue where
  | intVal (i : Int)
  | strVal (s : String)
  | noneVal
deriving DecidableEq, Repr

/-- The value `execute_query` (`adapters.py` lines 121-141) hands back to the
Workload Runner: a list of row dicts for a fetch, `cur.rowcount` for DML, and
`None` when `aioodbc.Error` was caught. -/
inductive QueryResult where
  | rows (l : List Row)
  | rowcount (n : Int)
  | null
deriving DecidableEq, Repr

/-- `core/models.py` `QueryExecutionMetric`. -/
structure QueryExecutionMetric where
  timestamp : Int
  workload_name : String
  query_name : String
  query_template : String
  parameters : List ParamValue
  duration_ms : ℚ
  rows_affected_or_fetched : Option Int
  success : Bool
deriving DecidableEq, Repr

/-- `core/models.py` `DBMSMetricData`. -/
structure DBMSMetricData where
  metric_name : String
  timestamp : Int
  data : Row
deriving DecidableEq, Repr

/-! ### Workload Runner: weighted pool (`workload_executor.py` 111-113) -/

/-- `weighted_queries = []; for q_def in workload_cfg.queries:
weighted_queries.extend([q_def] * q_def.weight)`. -/
def buildWeightedPool (queries : List QueryDefinition) : List QueryDefinition :=
  queries.foldl (fun acc q => acc ++ List.replicate q.weight q) []

/-! ### Workload Runner: single query instance (`workload_executor.py` 70-106) -/

/-- Lines 83-87: `len(raw_results)` for a list result, the rowcount for an
integer result, `None` otherwise. -/
def rowsAffectedOrFetched : QueryResult → Option Int
  | .rows l => some l.length
  | .rowcount n => some n
  | .null => none

/-- Line 89: `success = raw_results is not None`. -/
def querySucceeded : QueryResult → Bool
  | .null => false
  | _ => true

/-- `_execute_single_query_instance` (lines 70-101), from the adapter call on:
given the resolved parameter list, the raw adapter result, the two
`perf_counter` samples and the `datetime.now` sample, it builds the
`QueryExecutionMetric` of lines 91-100 and appends it to the metric sink
(`log_query_execution`, line 101). -/
def executeSingleQueryInstance (workload_name : String) (query_def : QueryDefinition)
    (params_list : List ParamValue) (raw_results : QueryResult)
    (perfStart perfEnd : ℚ) (now : Int)
    (sink : List QueryExecutionMetric) : List QueryExecutionMetric :=
  sink ++ [{ timestamp := now,
             workload_name := workload_name,
             query_name := query_def.name,
             query_template := query_def.template,
             parameters := params_list,
             duration_ms := (perfEnd - perfStart) * 1000,
             rows_affected_or_fetched := rowsAffectedOrFetched raw_results,
             success := querySucceeded raw_results }]

/-! ### Parameter Generator: `random_int_from_column_range`
(`workload_executor.py` 30-41) -/

/-- Cached table metadata entry (`schema_manager.tables_metadata[table]`). -/
structure TableMeta where
  min_id : Option Int
  max_id : Option Int
deriving DecidableEq, Repr

/-- Python `random.randint(a, b)`: a uniformly random integer in `[a, b]`
inclusive, raising `ValueError` (here `none`) when `a > b`.  The entropy `r`
selects `a + r % (b - a + 1)`; for `r` uniform this is uniform on `[a, b]`. -/
def randint (a b : Int) (r : ℕ) : Option Int :=
  if a ≤ b then some (a + (r : ℤ) % (b - a + 1)) else none

/-- Python truthiness of an optional string: `None` and `""` are falsy. -/
def strFalsy : Option String → Bool
  | none => true
  | some s => s.isEmpty

/-- The `random_int_from_column_range` branch of `_generate_query_param`
(lines 30-41): falsy table/column returns `1`; present metadata with both
bounds runs `random.randint(min_id, max_id)` with `ValueError` caught to `1`;
missing metadata or bounds returns `1`.  Total: every path returns a value. -/
def generateRangeParam (table column : Option String)
    (meta : Option TableMeta) (r : ℕ) : Int :=
  if strFalsy table || strFalsy column then 1
  else
    match meta with
    | some m =>
      match m.min_id, m.max_id with
      | some lo, some hi =>
        match randint lo hi r with
        | some v => v
        | none => 1
      | _, _ => 1
    | none => 1

/-! ### Parameter Generator: `random_from_column_sample`
(`workload_executor.py` 43-58) -/

/-- The cache key built at line 49: `(gen_type, table, column, sample_size)`. -/
structure SampleKey where
  gen_type : String
  table : String
  column : String
  sample_size : Nat
deriving DecidableEq, Repr

/-- `self._param_cache`, a dict keyed by `SampleKey`. -/
abbrev SampleCache := List (SampleKey × List String)

/-- Dict lookup on the param cache. -/
def cacheLookup (cache : SampleCache) (k : SampleKey) : Option (List String) :=
  match cache with
  | [] => none
  | (k', v) :: rest => if k' = k then some v else cacheLookup rest k

/-- Python `random.choice(l)` with entropy `r`; `none` on the empty list. -/
def pyChoice (l : List String) (r : ℕ) : Option String :=
  l.get? (r % l.length)

/-- `sample_size or 100` (line 48): `None` and `0` are falsy. -/
def effectiveSampleSize : Option Nat → Nat
  | none => 100
  | some n => if n = 0 then 100 else n

/-- The cache key the branch would use for a given config. -/
def sampleKeyOf (table column : String) (sample_size : Option Nat) : SampleKey :=
  ⟨"random_from_column_sample", table, column, effectiveSampleSize sample_size⟩

/-- Result of one `random_from_column_sample` resolution: the returned value,
the cache afterwards, and whether `get_column_sample` was called. -/
structure SampleResolveResult where
  value : String
  cache : SampleCache
  fetched : Bool

/-- The `random_from_column_sample` branch of `_generate_query_param`
(lines 43-58).  `fetch` is the `db_adapter.get_column_sample` collaborator. -/
def resolveSampleParam (fetch : SampleKey → List String)
    (cache : SampleCache) (table column : Option String)
    (sample_size : Option Nat) (r : ℕ) : SampleResolveResult :=
  if strFalsy table || strFalsy column then
    { value := "default_sample_value", cache := cache, fetched := false }
  else
    let key := sampleKeyOf (table.getD "") (column.getD "") sample_size
    match cacheLookup cache key with
    | some cached_sample =>
      { value := (pyChoice cached_sample r).getD "default_sample_value",
        cache := cache, fetched := false }
    | none =>
      let sample_values := fetch key
      let stored := if sample_values.isEmpty then ["default_if_empty"] else sample_values
      { value := (pyChoice stored r).getD "default_sample_value",
        cache := cache ++ [(key, stored)], fetched := true }

/-- One resolution call: table, column, sample size, entropy. -/
structure SampleCall where
  table : Option String
  column : Option String
  sample_size : Option Nat
  r : ℕ

/-- Number of `get_column_sample` fetches issued for key `k` over a sequence
of `random_from_column_sample` resolutions threaded through the cache. -/
def sampleFetchCount (fetch : SampleKey → List String) (cache : SampleCache)
    (calls : List SampleCall) (k : SampleKey) : ℕ :=
  match calls with
  | [] => 0
  | c :: rest =>
    let res := resolveSampleParam fetch cache c.table c.column c.sample_size c.r
    (if res.fetched = true ∧
        sampleKeyOf (c.table.getD "") (c.column.getD "") c.sample_size = k
      then 1 else 0)
      + sampleFetchCount fetch res.cache rest k

/-! ### Workload Runner: task loop and run_all
(`workload_executor.py` 108-156) -/

/-- Tuple helper for the loop below: same sink and error log, one more
iteration counted. -/
def bumpIterCount (p : List QueryExecutionMetric × List String × ℕ) :
    List QueryExecutionMetric × List String × ℕ :=
  (p.1, p.2.1, p.2.2 + 1)

/-- Trace of the `while` loop of `_run_workload_task` (lines 120-127).
Oracles: `stop i` is `stop_event.is_set()` at iteration `i`, `ok i` is
`time.time() - task_start_time < duration_seconds`, `pick i` the
`random.choice` entropy, `exc i` the exception (if any) raised by
`_execute_single_query_instance` at iteration `i` and caught at lines
124-125, and `params/res/perf/now` feed `executeSingleQueryInstance` when no
exception is raised.  Returns the metric sink, the error log and the number
of iterations executed.  `fuel` bounds the unrolling (the Python loop is
bounded in real time by `duration_seconds`). -/
def runWorkloadLoop (wname : String) (pool : List QueryDefinition)
    (stop ok : ℕ → Bool) (pick : ℕ → ℕ) (exc : ℕ → Option String)
    (params : ℕ → List ParamValue) (res : ℕ → QueryResult)
    (perf : ℕ → ℚ × ℚ) (now : ℕ → Int) :
    ℕ → ℕ → List QueryExecutionMetric → List String →
    List QueryExecutionMetric × List String × ℕ
  | _, 0, sink, errlog => (sink, errlog, 0)
  | i, fuel + 1, sink, errlog =>
    if !stop i && ok i then
      match pool.get? (pick i % pool.length) with
      | some q =>
        match exc i with
        | none =>
          bumpIterCount (runWorkloadLoop wname pool stop ok pick exc params res
            perf now (i + 1) fuel
            (executeSingleQueryInstance wname q (params i) (res i)
              (perf i).1 (perf i).2 (now i) sink)
            errlog)
        | some e =>
          bumpIterCount (runWorkloadLoop wname pool stop ok pick exc params res
            perf now (i + 1) fuel sink (errlog ++ [e]))
      | none => (sink, errlog, 0)
    else (sink, errlog, 0)

/-- `_run_workload_task` (lines 108-129): build the weighted pool; if it is
empty, log a warning and return at once (lines 115-117); otherwise run the
loop. -/
def runWorkloadTask (cfg : WorkloadConfig) (stop ok : ℕ → Bool)
    (pick : ℕ → ℕ) (exc : ℕ → Option String)
    (params : ℕ → List ParamValue) (res : ℕ → QueryResult)
    (perf : ℕ → ℚ × ℚ) (now : ℕ → Int) (fuel : ℕ)
    (sink : List QueryExecutionMetric) (errlog : List String) :
    List QueryExecutionMetric × List String × ℕ :=
  let weighted_queries := buildWeightedPool cfg.queries
  if weighted_queries.isEmpty then (sink, errlog, 0)
  else runWorkloadLoop cfg.name weighted_queries stop ok pick exc params res
    perf now 0 fuel sink errlog

/-- Number of iterations the loop guard admits, a function of the stop and
duration oracles alone. -/
def loopIterCount (stop ok : ℕ → Bool) : ℕ → ℕ → ℕ
  | _, 0 => 0
  | i, fuel + 1 =>
    if !stop i && ok i then loopIterCount stop ok (i + 1) fuel + 1 else 0

/-- `asyncio.gather(*tasks, return_exceptions=...)` on completed task
results: with `return_exceptions=True` every result (exception or not) is
collected into the returned list; with `False` the first exception
propagates. -/
def asyncioGather (return_exceptions : Bool)
    (results : List (Except String Unit)) :
    Except String (List (Except String Unit)) :=
  if return_exceptions then .ok results
  else
    match results.find? (fun t => match t with | .error _ => true | .ok _ => false) with
    | some (.error e) => .error e
    | _ => .ok results

/-- The final gather of `run_all_workloads` (line 155):
`await asyncio.gather(*tasks, return_exceptions=True)`. -/
def runAllWorkloadsGather (taskResults : List (Except String Unit)) :
    Except String (List (Except String Unit)) :=
  asyncioGather true taskResults

/-! ### Resource Sampler: per-metric cadence (`resource_monitor.py` 81-99) -/

/-- Result of the `for metric_cfg in dbms_metrics` pass of one tick. -/
structure DbmsTickResult where
  lastRun : String → Int
  dispatched : List MonitoringMetricConfig

/-- One tick's pass over the configured database metrics (lines 88-97): for
each config in order, if `now - last_run.get(name, default) ≥ frequency`,
dispatch its query (`run_coroutine_threadsafe`, fire-and-forget) and set
`last_run[name] = now` — the dispatch time, not the completion time. -/
def dbmsTick (cfgs : List MonitoringMetricConfig) (now : Int)
    (lastRun : String → Int) : DbmsTickResult :=
  match cfgs with
  | [] => { lastRun := lastRun, dispatched := [] }
  | cfg :: rest =>
    if cfg.frequency_seconds ≤ now - lastRun cfg.name then
      { lastRun := (dbmsTick rest now
          (fun n => if n = cfg.name then now else lastRun n)).lastRun,
        dispatched := cfg :: (dbmsTick rest now
          (fun n => if n = cfg.name then now else lastRun n)).dispatched }
    else dbmsTick rest now lastRun

/-- The `last_run` map after `k` ticks of the monitoring loop for a single
configured metric, ticks falling at times `t0, t0 + interval, ...`
(`_stop_event.wait(monitoring_interval_seconds)` at line 99).  The initial
map is `start_monitoring`'s `{cfg.name: 0}` (line 111). -/
def monitorTicksLastRun (cfg : MonitoringMetricConfig) (t0 interval : Int) :
    ℕ → String → Int
  | 0 => fun _ => 0
  | k + 1 => (dbmsTick [cfg] (t0 + interval * k)
      (monitorTicksLastRun cfg t0 interval k)).lastRun

/-- Whether the single configured metric's query is dispatched on tick `k`. -/
def dispatchesAtTick (cfg : MonitoringMetricConfig) (t0 interval : Int)
    (k : ℕ) : Bool :=
  !(dbmsTick [cfg] (t0 + interval * k)
      (monitorTicksLastRun cfg t0 interval k)).dispatched.isEmpty

/-! ### Resource Sampler: DBMS metric collection (`resource_monitor.py` 54-69) -/

/-- The `for row_data in results` loop of `_collect_one_dbms_metric` (lines
59-65): one `DBMSMetricData` per row, each built with its own
`datetime.now()` call (`clock c`, `clock (c+1)`, ...). -/
def collectRowsLoop (metric_cfg_name : String) (rows : List Row)
    (clock : ℕ → Int) (c : ℕ) : List DBMSMetricData :=
  match rows with
  | [] => []
  | row :: rest =>
    { metric_name := metric_cfg_name, timestamp := clock c, data := row }
      :: collectRowsLoop metric_cfg_name rest clock (c + 1)

/-- `_collect_one_dbms_metric` (lines 54-69): a `None` result logs a warning
and emits nothing; a list result emits one record per row via the loop.
`clock` is the `datetime.now` oracle and `c` the number of calls already
made to it. -/
def collectOneDbmsMetric (metric_cfg_name : String) (results : Option (List Row))
    (clock : ℕ → Int) (c : ℕ) : List DBMSMetricData :=
  match results with
  | none => []
  | some rows => collectRowsLoop metric_cfg_name rows clock c

/-! ### Resource Sampler: start/stop state machine
(`resource_monitor.py` 105-129) -/

/-- Observable state of `SystemResourceMonitor`: `threadAlive` models
`_monitor_thread` (`none` = `None`, `some b` = a thread object with
`is_alive() = b`); `stopSet` models `_stop_event`; `loopsStarted` counts
`Thread(...).start()` calls; `anomalyLogged` records the "did not stop in
time" warning of line 124.  The `_dbms_metric_last_run` dict the loop uses
is modelled separately by `monitorTicksLastRun`. -/
structure MonitorState where
  threadAlive : Option Bool
  stopSet : Bool
  loopsStarted : ℕ
  anomalyLogged : Bool
deriving DecidableEq, Repr

/-- `self._monitor_thread and self._monitor_thread.is_alive()`. -/
def monitorIsRunning (st : MonitorState) : Bool :=
  match st.threadAlive with
  | some b => b
  | none => false

/-- `start_monitoring` (lines 105-115): no-op when the thread is alive;
otherwise clear the stop event and start a fresh monitoring thread. -/
def startMonitoring (st : MonitorState) : MonitorState :=
  if monitorIsRunning st then st
  else { st with stopSet := false, threadAlive := some true,
                 loopsStarted := st.loopsStarted + 1 }

/-- `stop_monitoring` (lines 118-129): when the thread is alive, set the stop
event, `join(timeout=10)`, log a warning if the thread is still alive after
the bounded wait (non-fatal: the thread is abandoned), and set
`_monitor_thread = None` (line 127).  `loopExitsInTime` abstracts whether the
loop observes the stop event within the join timeout.  When not running,
only an info line is logged. -/
def stopMonitoring (st : MonitorState) (loopExitsInTime : Bool) : MonitorState :=
  if monitorIsRunning st then
    { st with stopSet := true,
              anomalyLogged := st.anomalyLogged || !loopExitsInTime,
              threadAlive := none }
  else st

/-! ### Metric Sink: DBMS-metric read-back (`metrics_collector.py` 81-100) -/

/-- How the `timestamp` value of a json-decoded line behaves under
`datetime.fromisoformat(entry_dict['timestamp'])`: absent key (`KeyError`),
non-string value (`TypeError`), string not in ISO format (`ValueError`), or
a valid timestamp. -/
inductive TsField where
  | missing
  | badType
  | badFormat
  | val (t : Int)
deriving DecidableEq, Repr

/-- One physical line of `dbms_metrics.jsonl` as seen by the read-back loop:
`decodeError` = `json.loads` raises `JSONDecodeError`; `nonDict` =
`json.loads` succeeds but the value has no `.get` (raises `AttributeError`);
`entry` = a decoded dict with its three relevant fields. -/
inductive LogLine where
  | decodeError
  | nonDict
  | entry (metric_name : Option String) (timestamp : TsField) (data : Option Row)
deriving DecidableEq, Repr

/-- Outcome of evaluating the `DBMSMetricData(...)` constructor call of lines
89-93 on a decoded dict, Python evaluation order: `metric_name` key first,
then `timestamp` key and `fromisoformat`, then `data` key.  `caught` =
raises `KeyError`/`TypeError` (in the inner `except` tuple of line 94);
`uncaught` = raises `ValueError` (not in that tuple). -/
inductive ConstructOutcome where
  | ok (rec : DBMSMetricData)
  | caught
  | uncaught
deriving DecidableEq, Repr

/-- Evaluate the record construction of lines 89-93. -/
def constructRecord (metric_name : Option String) (timestamp : TsField)
    (data : Option Row) : ConstructOutcome :=
  match metric_name with
  | none => .caught
  | some n =>
    match timestamp with
    | .missing => .caught
    | .badType => .caught
    | .badFormat => .uncaught
    | .val t =>
      match data with
      | none => .caught
      | some d => .ok { metric_name := n, timestamp := t, data := d }

/-- The filter condition of line 88:
`entry_dict.get('metric_name') == metric_name_filter or metric_name_filter is None`. -/
def lineMatchesFilter (metric_name : Option String)
    (metric_name_filter : Option String) : Bool :=
  metric_name == metric_name_filter || metric_name_filter.isNone

/-- The `for line in f` loop of `get_collected_dbms_metrics` (lines 85-95)
with its two exception layers: the inner `except (JSONDecodeError, KeyError,
TypeError)` skips the line; any other exception (`AttributeError` on a
non-dict line, `ValueError` from `fromisoformat`) escapes to the outer
`except Exception` of line 98, which logs and returns the records collected
so far. -/
def readDbmsLines (metric_name_filter : Option String) :
    List LogLine → List DBMSMetricData
  | [] => []
  | line :: rest =>
    match line with
    | .decodeError => readDbmsLines metric_name_filter rest
    | .nonDict => []
    | .entry mn ts d =>
      if lineMatchesFilter mn metric_name_filter then
        match constructRecord mn ts d with
        | .ok rec => rec :: readDbmsLines metric_name_filter rest
        | .caught => readDbmsLines metric_name_filter rest
        | .uncaught => []
      else readDbmsLines metric_name_filter rest

/-- `get_collected_dbms_metrics` (lines 81-100): a missing file
(`FileNotFoundError`, line 96) yields the empty list; otherwise the line
loop runs. -/
def getCollectedDbmsMetrics (metric_name_filter : Option String)
    (file : Option (List LogLine)) : List DBMSMetricData :=
  match file with
  | none => []
  | some lines => readDbmsLines metric_name_filter lines

/-- Parse one line into a well-formed record, `none` on any defect.  Used by
the spec-side read-back description below. -/
def specParseLine : LogLine → Option DBMSMetricData
  | .entry (some n) (.val t) (some d) =>
    some { metric_name := n, timestamp := t, data := d }
  | _ => none

/-- The read-back behaviour the specification describes (`spec.md` §4.4 and
§8): parse each line in file order, keep exactly the well-formed records
whose `metric_name` matches the filter, and skip every unparsable line
without failing the rest of the read.  Stated for comparison with
`getCollectedDbmsMetrics`, the embedding of the code. -/
def specReadDbmsMetrics (metric_name_filter : Option String)
    (file : Option (List LogLine)) : List DBMSMetricData :=
  match file with
  | none => []
  | some lines =>
    (lines.filterMap specParseLine).filter
      (fun rec => some rec.metric_name == metric_name_filter || metric_name_filter.isNone)

/-- Whether a line makes the read-back loop abort via the outer `except`
handler: a non-dict JSON value (`AttributeError`), or a line that passes the
filter condition but whose timestamp string raises `ValueError` in
`fromisoformat`. -/
def lineAborts (metric_name_filter : Option String) : LogLine → Bool
  | .decodeError => false
  | .nonDict => true
  | .entry mn ts _ =>
    lineMatchesFilter mn metric_name_filter && ts == TsField.badFormat

end SqlSim

namespace SqlSim

/-! ## Helper lemmas -/

theorem buildWeightedPool_foldl_acc (queries : List QueryDefinition)
    (acc : List QueryDefinition) :
    queries.foldl (fun a q => a ++ List.replicate q.weight q) acc
      = acc ++ queries.flatMap (fun q => List.replicate q.weight q) := by
  induction queries generalizing acc with
  | nil => simp
  | cons q qs ih => simp [List.foldl_cons, ih, List.flatMap_cons, List.append_assoc]

theorem buildWeightedPool_eq_flatMap (queries : List QueryDefinition) :
    buildWeightedPool queries = queries.flatMap (fun q => List.replicate q.weight q) := by
  simpa [buildWeightedPool] using buildWeightedPool_foldl_acc queries []

theorem buildWeightedPool_length (queries : List QueryDefinition) :
    (buildWeightedPool queries).length = (queries.map (fun q => q.weight)).sum := by
  rw [buildWeightedPool_eq_flatMap]
  induction queries with
  | nil => simp
  | cons q qs ih => simp [List.flatMap_cons, ih]

theorem buildWeightedPool_count (queries : List QueryDefinition)
    (hnd : queries.Nodup) (q : QueryDefinition) (hq : q ∈ queries) :
    (buildWeightedPool queries).count q = q.weight := by
  rw [buildWeightedPool_eq_flatMap]
  induction queries with
  | nil => cases hq
  | cons p ps ih =>
    rcases List.mem_cons.mp hq with h | h
    · subst h
      have hnot : q ∉ ps := (List.nodup_cons.mp hnd).1
      have hz : (ps.flatMap (fun r => List.replicate r.weight r)).count q = 0 := by
        rw [List.count_eq_zero]
        intro hmem
        rcases List.mem_flatMap.mp hmem with ⟨r, hr, hqr⟩
        have := List.eq_of_mem_replicate hqr
        exact hnot (this ▸ hr)
      simp [List.flatMap_cons, List.count_append, hz, List.count_replicate_self]
    · have hne : p ≠ q := by
        intro he
        exact (List.nodup_cons.mp hnd).1 (he ▸ h)
      have hz : (List.replicate p.weight p).count q = 0 := by
        rw [List.count_eq_zero]
        intro hmem
        exact hne (List.eq_of_mem_replicate hmem).symm
      rw [List.flatMap_cons, List.count_append, hz,
        ih (List.nodup_cons.mp hnd).2 h, Nat.zero_add]

end SqlSim

/-! ## Claims -/

/-- C1: the query pool repeats each `QueryDefinition` exactly `weight` times,
so (for distinct query definitions, every weight ≥ 1) a uniform pick over the
pool selects query `q` with probability `weight q / Σ weights`: the number of
pool slots holding `q` is `q.weight`, the pool size is the weight sum, and
the ratio of the two is the rational `q.weight / Σ weights`. -/
theorem C1_weighted_pool_selection_probability
    (queries : List SqlSim.QueryDefinition) (q : SqlSim.QueryDefinition)
    (hnd : queries.Nodup) (hq : q ∈ queries)
    (_hw : ∀ p ∈ queries, 1 ≤ p.weight) :
    (SqlSim.buildWeightedPool queries).count q = q.weight ∧
    (SqlSim.buildWeightedPool queries).length = (queries.map (fun p => p.weight)).sum ∧
    (((SqlSim.buildWeightedPool queries).count q : ℚ)
        / ((SqlSim.buildWeightedPool queries).length : ℚ)
      = (q.weight : ℚ) / ((((queries.map (fun p => p.weight)).sum : ℕ)) : ℚ)) := by
  refine ⟨SqlSim.buildWeightedPool_count queries hnd q hq,
    SqlSim.buildWeightedPool_length queries, ?_⟩
  rw [SqlSim.buildWeightedPool_count queries hnd q hq,
    SqlSim.buildWeightedPool_length queries]

/-- Witness for C1 on a concrete two-query workload with weights 3 and 1. -/
theorem C1_witness :
    letI qa : SqlSim.QueryDefinition := { name := "a", template := "SELECT 1", weight := 3 }
    letI qb : SqlSim.QueryDefinition := { name := "b", template := "SELECT 2", weight := 1 }
    (SqlSim.buildWeightedPool [qa, qb]).count qa = qa.weight ∧
    (SqlSim.buildWeightedPool [qa, qb]).length = ([qa, qb].map (fun p => p.weight)).sum ∧
    (((SqlSim.buildWeightedPool [qa, qb]).count qa : ℚ)
        / ((SqlSim.buildWeightedPool [qa, qb]).length : ℚ)
      = (qa.weight : ℚ) / (((([qa, qb].map (fun p => p.weight)).sum : ℕ)) : ℚ)) := by
  exact C1_weighted_pool_selection_probability [_, _] _
    (by decide) (by simp) (by decide)

/-- C2: one single-query execution that returns a result emits exactly one
`QueryExecutionMetric` to the sink, with `duration_ms ≥ 0` (the perf-counter
clock being monotone), `success` true exactly when the result is non-null,
and `rows_affected_or_fetched` the list length for a list result, the
integer for an integer result, and null for a null result. -/
theorem C2_single_query_metric_emission
    (wname : String) (qd : SqlSim.QueryDefinition)
    (params : List SqlSim.ParamValue) (raw : SqlSim.QueryResult)
    (t1 t2 : ℚ) (now : Int) (sink : List SqlSim.QueryExecutionMetric)
    (hclock : t1 ≤ t2) :
    ∃ m, SqlSim.executeSingleQueryInstance wname qd params raw t1 t2 now sink
        = sink ++ [m] ∧
      0 ≤ m.duration_ms ∧
      (m.success = true ↔ raw ≠ SqlSim.QueryResult.null) ∧
      (∀ l, raw = SqlSim.QueryResult.rows l →
        m.rows_affected_or_fetched = some (l.length : ℤ)) ∧
      (∀ n, raw = SqlSim.QueryResult.rowcount n →
        m.rows_affected_or_fetched = some n) ∧
      (raw = SqlSim.QueryResult.null → m.rows_affected_or_fetched = none) := by
  refine ⟨{ timestamp := now, workload_name := wname, query_name := qd.name,
            query_template := qd.template, parameters := params,
            duration_ms := (t2 - t1) * 1000,
            rows_affected_or_fetched := SqlSim.rowsAffectedOrFetched raw,
            success := SqlSim.querySucceeded raw }, rfl, ?_, ?_, ?_, ?_, ?_⟩
  · have h0 : (0 : ℚ) ≤ t2 - t1 := sub_nonneg.mpr hclock
    have := mul_nonneg h0 (by norm_num : (0:ℚ) ≤ 1000)
    simpa using this
  · cases raw <;> simp [SqlSim.querySucceeded]
  · intro l hl; subst hl; simp [SqlSim.rowsAffectedOrFetched]
  · intro n hn; subst hn; simp [SqlSim.rowsAffectedOrFetched]
  · intro hn; subst hn; simp [SqlSim.rowsAffectedOrFetched]

/-- Witness for C2: a concrete execution returning two rows. -/
theorem C2_witness :
    ∃ m, SqlSim.executeSingleQueryInstance "w"
        { name := "q", template := "SELECT *" } []
        (SqlSim.QueryResult.rows [[("a", "1")], [("a", "2")]]) 0 2 5 []
        = [] ++ [m] ∧
      0 ≤ m.duration_ms ∧
      (m.success = true ↔
        SqlSim.QueryResult.rows [[("a", "1")], [("a", "2")]] ≠ SqlSim.QueryResult.null) ∧
      (∀ l, SqlSim.QueryResult.rows [[("a", "1")], [("a", "2")]] = SqlSim.QueryResult.rows l →
        m.rows_affected_or_fetched = some (l.length : ℤ)) ∧
      (∀ n, SqlSim.QueryResult.rows [[("a", "1")], [("a", "2")]] = SqlSim.QueryResult.rowcount n →
        m.rows_affected_or_fetched = some n) ∧
      (SqlSim.QueryResult.rows [[("a", "1")], [("a", "2")]] = SqlSim.QueryResult.null →
        m.rows_affected_or_fetched = none) :=
  C2_single_query_metric_emission "w" { name := "q", template := "SELECT *" } []
    (SqlSim.QueryResult.rows [[("a", "1")], [("a", "2")]]) 0 2 5 [] (by norm_num)

/-- C4: `random_int_from_column_range` resolution.  With both bounds present
and equal it returns that constant; with `min < max` it returns
`min + r % (max - min + 1)`, which lies in `[min, max]` and, for the entropy
drawn uniformly from `[0, max - min + 1)`, takes each value of the range
exactly once; with metadata or either bound absent it returns the fallback
`1`.  The embedding is a total function: no path raises (the `ValueError` of
`random.randint` is caught to `1`). -/
theorem C4_range_from_table_resolution (t c : String)
    (ht : t.isEmpty = false) (hc : c.isEmpty = false) :
    (∀ (v : ℤ) (r : ℕ), SqlSim.generateRangeParam (some t) (some c)
        (some { min_id := some v, max_id := some v }) r = v) ∧
    (∀ (lo hi : ℤ) (r : ℕ), lo < hi →
      lo ≤ SqlSim.generateRangeParam (some t) (some c)
          (some { min_id := some lo, max_id := some hi }) r ∧
      SqlSim.generateRangeParam (some t) (some c)
          (some { min_id := some lo, max_id := some hi }) r ≤ hi ∧
      SqlSim.generateRangeParam (some t) (some c)
          (some { min_id := some lo, max_id := some hi }) r
        = lo + (r : ℤ) % (hi - lo + 1)) ∧
    (∀ (lo hi v : ℤ), lo < hi → lo ≤ v → v ≤ hi →
      ((Finset.range (hi - lo + 1).toNat).filter
        (fun r => SqlSim.generateRangeParam (some t) (some c)
          (some { min_id := some lo, max_id := some hi }) r = v)).card = 1) ∧
    (∀ r : ℕ, SqlSim.generateRangeParam (some t) (some c) none r = 1) ∧
    (∀ (b : Option ℤ) (r : ℕ), SqlSim.generateRangeParam (some t) (some c)
        (some { min_id := none, max_id := b }) r = 1) ∧
    (∀ (a : Option ℤ) (r : ℕ), SqlSim.generateRangeParam (some t) (some c)
        (some { min_id := a, max_id := none }) r = 1) := by
  have hfalsy : (SqlSim.strFalsy (some t) || SqlSim.strFalsy (some c)) = false := by
    simp [SqlSim.strFalsy, ht, hc]
  have hval : ∀ (lo hi : ℤ) (r : ℕ), lo ≤ hi →
      SqlSim.generateRangeParam (some t) (some c)
        (some { min_id := some lo, max_id := some hi }) r
        = lo + (r : ℤ) % (hi - lo + 1) := by
    intro lo hi r hle
    simp [SqlSim.generateRangeParam, hfalsy, SqlSim.randint, hle]
  refine ⟨?_, ?_, ?_, ?_, ?_, ?_⟩
  · intro v r
    rw [hval v v r le_rfl]
    simp
  · intro lo hi r hlt
    have h0 : (0 : ℤ) ≤ (r : ℤ) % (hi - lo + 1) :=
      Int.emod_nonneg _ (by omega)
    have h1 : (r : ℤ) % (hi - lo + 1) < hi - lo + 1 :=
      Int.emod_lt_of_pos _ (by omega)
    rw [hval lo hi r hlt.le]
    refine ⟨by omega, by omega, rfl⟩
  · intro lo hi v hlt hlov hvhi
    have hset : (Finset.range (hi - lo + 1).toNat).filter
        (fun r => SqlSim.generateRangeParam (some t) (some c)
          (some { min_id := some lo, max_id := some hi }) r = v)
        = {(v - lo).toNat} := by
      ext s
      simp only [Finset.mem_filter, Finset.mem_range, Finset.mem_singleton,
        hval lo hi s hlt.le]
      constructor
      · rintro ⟨hs, hv⟩
        have hsn : (s : ℤ) < hi - lo + 1 := by omega
        have hmod : (s : ℤ) % (hi - lo + 1) = s :=
          Int.emod_eq_of_lt (by omega) hsn
        omega
      · rintro rfl
        have h2 : (((v - lo).toNat : ℕ) : ℤ) < hi - lo + 1 := by omega
        have h3 : (((v - lo).toNat : ℕ) : ℤ) % (hi - lo + 1) = ((v - lo).toNat : ℕ) :=
          Int.emod_eq_of_lt (by omega) h2
        constructor
        · omega
        · omega
    rw [hset]
    simp
  · intro r
    simp [SqlSim.generateRangeParam, hfalsy]
  · intro b r
    cases b <;> simp [SqlSim.generateRangeParam, hfalsy]
  · intro a r
    cases a <;> simp [SqlSim.generateRangeParam, hfalsy]

/-- Witness for C4: table "orders", column "id"; the `42/42` constant case,
the `[10,12]` range case and the missing-metadata fallback case. -/
theorem C4_witness :
    "orders".isEmpty = false ∧ "id".isEmpty = false ∧
    SqlSim.generateRangeParam (some "orders") (some "id")
      (some { min_id := some 42, max_id := some 42 }) 7 = 42 ∧
    10 ≤ SqlSim.generateRangeParam (some "orders") (some "id")
      (some { min_id := some 10, max_id := some 12 }) 5 ∧
    SqlSim.generateRangeParam (some "orders") (some "id")
      (some { min_id := some 10, max_id := some 12 }) 5 ≤ 12 ∧
    SqlSim.generateRangeParam (some "orders") (some "id") none 3 = 1 := by
  have h := C4_range_from_table_resolution "orders" "id" rfl rfl
  exact ⟨rfl, rfl, h.1 42 7, (h.2.1 10 12 5 (by norm_num)).1,
    (h.2.1 10 12 5 (by norm_num)).2.1, h.2.2.2.1 3⟩

namespace SqlSim

theorem cacheLookup_append_some (cache l : SampleCache) (k : SampleKey)
    (v : List String) (h : cacheLookup cache k = some v) :
    cacheLookup (cache ++ l) k = some v := by
  induction cache with
  | nil => simp [cacheLookup] at h
  | cons q rest ih =>
    obtain ⟨k', w⟩ := q
    by_cases he : k' = k <;> simp_all [cacheLookup, he]

theorem cacheLookup_append_self (cache : SampleCache) (k : SampleKey)
    (v : List String) (h : cacheLookup cache k = none) :
    cacheLookup (cache ++ [(k, v)]) k = some v := by
  induction cache with
  | nil => simp [cacheLookup]
  | cons q rest ih =>
    obtain ⟨k', w⟩ := q
    by_cases he : k' = k <;> simp_all [cacheLookup, he]

theorem resolveSampleParam_spec (fetch : SampleKey → List String)
    (cache : SampleCache) (t c : Option String) (sz : Option Nat) (r : ℕ) :
    ((resolveSampleParam fetch cache t c sz r).fetched = true ↔
      ((strFalsy t || strFalsy c) = false ∧
        cacheLookup cache (sampleKeyOf (t.getD "") (c.getD "") sz) = none)) ∧
    ((resolveSampleParam fetch cache t c sz r).fetched = true →
      (resolveSampleParam fetch cache t c sz r).cache
        = cache ++ [(sampleKeyOf (t.getD "") (c.getD "") sz,
            if (fetch (sampleKeyOf (t.getD "") (c.getD "") sz)).isEmpty
            then ["default_if_empty"]
            else fetch (sampleKeyOf (t.getD "") (c.getD "") sz))]) ∧
    ((resolveSampleParam fetch cache t c sz r).fetched = false →
      (resolveSampleParam fetch cache t c sz r).cache = cache) := by
  by_cases hg : (strFalsy t || strFalsy c) = true
  · simp [resolveSampleParam, hg]
  · rw [Bool.not_eq_true] at hg
    cases hcl : cacheLookup cache (sampleKeyOf (t.getD "") (c.getD "") sz) with
    | some v => simp [resolveSampleParam, hg, hcl]
    | none => simp [resolveSampleParam, hg, hcl]

theorem resolveSampleParam_cache_mono (fetch : SampleKey → List String)
    (cache : SampleCache) (t c : Option String) (sz : Option Nat) (r : ℕ)
    (k : SampleKey) (v : List String) (h : cacheLookup cache k = some v) :
    cacheLookup (resolveSampleParam fetch cache t c sz r).cache k = some v := by
  cases hf : (resolveSampleParam fetch cache t c sz r).fetched with
  | false =>
    rw [(resolveSampleParam_spec fetch cache t c sz r).2.2 hf]
    exact h
  | true =>
    rw [(resolveSampleParam_spec fetch cache t c sz r).2.1 hf]
    exact cacheLookup_append_some _ _ _ _ h

theorem sampleFetchCount_zero_of_cached (fetch : SampleKey → List String)
    (calls : List SampleCall) (cache : SampleCache) (k : SampleKey)
    (v : List String) (h : cacheLookup cache k = some v) :
    sampleFetchCount fetch cache calls k = 0 := by
  induction calls generalizing cache v with
  | nil => rfl
  | cons call rest ih =>
    rw [sampleFetchCount]
    have hnotf : ¬((resolveSampleParam fetch cache call.table call.column
        call.sample_size call.r).fetched = true ∧
        sampleKeyOf (call.table.getD "") (call.column.getD "") call.sample_size = k) := by
      rintro ⟨hf, hk⟩
      have := ((resolveSampleParam_spec fetch cache call.table call.column
        call.sample_size call.r).1.mp hf).2
      rw [hk, h] at this
      exact Option.noConfusion this
    rw [if_neg hnotf, Nat.zero_add]
    exact ih _ v (resolveSampleParam_cache_mono fetch cache call.table call.column
      call.sample_size call.r k v h)

theorem sampleFetchCount_le_one (fetch : SampleKey → List String)
    (calls : List SampleCall) (cache : SampleCache) (k : SampleKey) :
    sampleFetchCount fetch cache calls k ≤ 1 := by
  induction calls generalizing cache with
  | nil => exact Nat.zero_le 1
  | cons call rest ih =>
    rw [sampleFetchCount]
    by_cases hf : (resolveSampleParam fetch cache call.table call.column
        call.sample_size call.r).fetched = true ∧
        sampleKeyOf (call.table.getD "") (call.column.getD "") call.sample_size = k
    · rw [if_pos hf]
      have hmiss := ((resolveSampleParam_spec fetch cache call.table call.column
        call.sample_size call.r).1.mp hf.1).2
      have hcache := (resolveSampleParam_spec fetch cache call.table call.column
        call.sample_size call.r).2.1 hf.1
      have hsome : cacheLookup (resolveSampleParam fetch cache call.table call.column
          call.sample_size call.r).cache k
          = some (if (fetch (sampleKeyOf (call.table.getD "") (call.column.getD "")
              call.sample_size)).isEmpty
            then ["default_if_empty"]
            else fetch (sampleKeyOf (call.table.getD "") (call.column.getD "")
              call.sample_size)) := by
        rw [hcache, hf.2]
        exact cacheLookup_append_self _ _ _ (hf.2 ▸ hmiss)
      rw [sampleFetchCount_zero_of_cached fetch rest _ k _ hsome]
    · rw [if_neg hf, Nat.zero_add]
      exact ih _

theorem pyChoice_getD_mem (l : List String) (r : ℕ) (d : String)
    (h : l ≠ []) : (pyChoice l r).getD d ∈ l := by
  have hlen : 0 < l.length := List.length_pos.mpr h
  have hlt : r % l.length < l.length := Nat.mod_lt _ hlen
  have := List.get?_eq_get (l := l) (n := r % l.length) hlt
  rw [pyChoice, this]
  exact List.get_mem l _ _

end SqlSim

/-- C5: at most one `get_column_sample` fetch is issued per distinct cache
key over any sequence of `random_from_column_sample` resolutions threaded
through the cache, and for a key not yet cached the first resolution fetches
and populates the cache (an empty fetch stored as the one-element fallback
list) while a second resolution with the same key does not fetch, leaves the
cache unchanged, and returns an element of the cached list. -/
theorem C5_sample_cache_single_fetch (fetch : SqlSim.SampleKey → List String)
    (cache : SqlSim.SampleCache) (calls : List SqlSim.SampleCall)
    (k : SqlSim.SampleKey) (t c : String) (sz : Option Nat) (r1 r2 : ℕ)
    (ht : t.isEmpty = false) (hc : c.isEmpty = false)
    (hmiss : SqlSim.cacheLookup cache (SqlSim.sampleKeyOf t c sz) = none) :
    SqlSim.sampleFetchCount fetch cache calls k ≤ 1 ∧
    ((SqlSim.resolveSampleParam fetch cache (some t) (some c) sz r1).fetched = true ∧
      SqlSim.cacheLookup
        (SqlSim.resolveSampleParam fetch cache (some t) (some c) sz r1).cache
        (SqlSim.sampleKeyOf t c sz)
        = some (if (fetch (SqlSim.sampleKeyOf t c sz)).isEmpty
            then ["default_if_empty"] else fetch (SqlSim.sampleKeyOf t c sz)) ∧
      (SqlSim.resolveSampleParam fetch
        (SqlSim.resolveSampleParam fetch cache (some t) (some c) sz r1).cache
        (some t) (some c) sz r2).fetched = false ∧
      (SqlSim.resolveSampleParam fetch
        (SqlSim.resolveSampleParam fetch cache (some t) (some c) sz r1).cache
        (some t) (some c) sz r2).cache
        = (SqlSim.resolveSampleParam fetch cache (some t) (some c) sz r1).cache ∧
      (SqlSim.resolveSampleParam fetch
        (SqlSim.resolveSampleParam fetch cache (some t) (some c) sz r1).cache
        (some t) (some c) sz r2).value
        ∈ (if (fetch (SqlSim.sampleKeyOf t c sz)).isEmpty
            then ["default_if_empty"] else fetch (SqlSim.sampleKeyOf t c sz))) := by
  have hg : (SqlSim.strFalsy (some t) || SqlSim.strFalsy (some c)) = false := by
    simp [SqlSim.strFalsy, ht, hc]
  have hkey : SqlSim.sampleKeyOf ((some t).getD "") ((some c).getD "") sz
      = SqlSim.sampleKeyOf t c sz := rfl
  have spec1 := SqlSim.resolveSampleParam_spec fetch cache (some t) (some c) sz r1
  have hf1 : (SqlSim.resolveSampleParam fetch cache (some t) (some c) sz r1).fetched
      = true := spec1.1.mpr ⟨hg, by rw [hkey]; exact hmiss⟩
  have hcache1 := spec1.2.1 hf1
  have hstored : SqlSim.cacheLookup
      (SqlSim.resolveSampleParam fetch cache (some t) (some c) sz r1).cache
      (SqlSim.sampleKeyOf t c sz)
      = some (if (fetch (SqlSim.sampleKeyOf t c sz)).isEmpty
          then ["default_if_empty"] else fetch (SqlSim.sampleKeyOf t c sz)) := by
    rw [hcache1, hkey]
    exact SqlSim.cacheLookup_append_self _ _ _ hmiss
  have spec2 := SqlSim.resolveSampleParam_spec fetch
    (SqlSim.resolveSampleParam fetch cache (some t) (some c) sz r1).cache
    (some t) (some c) sz r2
  have hf2 : (SqlSim.resolveSampleParam fetch
      (SqlSim.resolveSampleParam fetch cache (some t) (some c) sz r1).cache
      (some t) (some c) sz r2).fetched = false := by
    cases hb : (SqlSim.resolveSampleParam fetch
        (SqlSim.resolveSampleParam fetch cache (some t) (some c) sz r1).cache
        (some t) (some c) sz r2).fetched with
    | false => rfl
    | true =>
      have := (spec2.1.mp hb).2
      rw [hkey, hstored] at this
      exact Option.noConfusion this
  refine ⟨SqlSim.sampleFetchCount_le_one fetch calls cache k,
    hf1, hstored, hf2, spec2.2.2 hf2, ?_⟩
  have hne : (if (fetch (SqlSim.sampleKeyOf t c sz)).isEmpty
      then ["default_if_empty"] else fetch (SqlSim.sampleKeyOf t c sz)) ≠ [] := by
    split
    · exact List.cons_ne_nil _ _
    · rename_i hemp
      exact fun he => hemp (by rw [he]; rfl)
  have hv : (SqlSim.resolveSampleParam fetch
      (SqlSim.resolveSampleParam fetch cache (some t) (some c) sz r1).cache
      (some t) (some c) sz r2).value
      = (SqlSim.pyChoice (if (fetch (SqlSim.sampleKeyOf t c sz)).isEmpty
          then ["default_if_empty"] else fetch (SqlSim.sampleKeyOf t c sz)) r2).getD
        "default_sample_value" := by
    rw [SqlSim.resolveSampleParam]
    rw [hg]
    simp only [Bool.false_eq_true, if_false]
    have : SqlSim.cacheLookup
        (SqlSim.resolveSampleParam fetch cache (some t) (some c) sz r1).cache
        (SqlSim.sampleKeyOf ((some t).getD "") ((some c).getD "") sz)
        = some (if (fetch (SqlSim.sampleKeyOf t c sz)).isEmpty
            then ["default_if_empty"] else fetch (SqlSim.sampleKeyOf t c sz)) := by
      rw [hkey]; exact hstored
    rw [this]
  rw [hv]
  exact SqlSim.pyChoice_getD_mem _ r2 _ hne

/-- Witness for C5: key ("users", "email", size 10), an empty starting cache
and a two-call run; the fetch returns two values. -/
theorem C5_witness :
    "users".isEmpty = false ∧ "email".isEmpty = false ∧
    SqlSim.cacheLookup [] (SqlSim.sampleKeyOf "users" "email" (some 10)) = none ∧
    (SqlSim.sampleFetchCount (fun _ => ["x", "y"]) []
      [{ table := some "users", column := some "email", sample_size := some 10, r := 0 },
       { table := some "users", column := some "email", sample_size := some 10, r := 1 }]
      (SqlSim.sampleKeyOf "users" "email" (some 10)) ≤ 1 ∧
    ((SqlSim.resolveSampleParam (fun _ => ["x", "y"]) [] (some "users") (some "email")
        (some 10) 0).fetched = true ∧
      SqlSim.cacheLookup
        (SqlSim.resolveSampleParam (fun _ => ["x", "y"]) [] (some "users") (some "email")
          (some 10) 0).cache
        (SqlSim.sampleKeyOf "users" "email" (some 10))
        = some (if ((fun (_ : SqlSim.SampleKey) => ["x", "y"])
              (SqlSim.sampleKeyOf "users" "email" (some 10))).isEmpty
            then ["default_if_empty"]
            else (fun (_ : SqlSim.SampleKey) => ["x", "y"])
              (SqlSim.sampleKeyOf "users" "email" (some 10))) ∧
      (SqlSim.resolveSampleParam (fun _ => ["x", "y"])
        (SqlSim.resolveSampleParam (fun _ => ["x", "y"]) [] (some "users") (some "email")
          (some 10) 0).cache
        (some "users") (some "email") (some 10) 3).fetched = false ∧
      (SqlSim.resolveSampleParam (fun _ => ["x", "y"])
        (SqlSim.resolveSampleParam (fun _ => ["x", "y"]) [] (some "users") (some "email")
          (some 10) 0).cache
        (some "users") (some "email") (some 10) 3).cache
        = (SqlSim.resolveSampleParam (fun _ => ["x", "y"]) [] (some "users") (some "email")
          (some 10) 0).cache ∧
      (SqlSim.resolveSampleParam (fun _ => ["x", "y"])
        (SqlSim.resolveSampleParam (fun _ => ["x", "y"]) [] (some "users") (some "email")
          (some 10) 0).cache
        (some "users") (some "email") (some 10) 3).value
        ∈ (if ((fun (_ : SqlSim.SampleKey) => ["x", "y"])
              (SqlSim.sampleKeyOf "users" "email" (some 10))).isEmpty
            then ["default_if_empty"]
            else (fun (_ : SqlSim.SampleKey) => ["x", "y"])
              (SqlSim.sampleKeyOf "users" "email" (some 10))))) :=
  ⟨rfl, rfl, rfl,
    C5_sample_cache_single_fetch (fun _ => ["x", "y"]) []
      [{ table := some "users", column := some "email", sample_size := some 10, r := 0 },
       { table := some "users", column := some "email", sample_size := some 10, r := 1 }]
      (SqlSim.sampleKeyOf "users" "email" (some 10)) "users" "email" (some 10) 0 3
      rfl rfl rfl⟩

namespace SqlSim

theorem dbmsTick_dispatched_subset (cfgs : List MonitoringMetricConfig)
    (now : Int) (lr : String → Int) (c : MonitoringMetricConfig)
    (h : c ∈ (dbmsTick cfgs now lr).dispatched) : c ∈ cfgs := by
  induction cfgs generalizing lr with
  | nil => simp [dbmsTick] at h
  | cons cfg rest ih =>
    rw [dbmsTick] at h
    by_cases hcond : cfg.frequency_seconds ≤ now - lr cfg.name
    · rw [if_pos hcond] at h
      rcases List.mem_cons.mp h with h | h
      · exact h ▸ List.mem_cons_self _ _
      · exact List.mem_cons_of_mem _ (ih _ h)
    · rw [if_neg hcond] at h
      exact List.mem_cons_of_mem _ (ih _ h)

theorem dbmsTick_lastRun_not_mem (cfgs : List MonitoringMetricConfig)
    (now : Int) (lr : String → Int) (n : String)
    (h : n ∉ cfgs.map (fun c => c.name)) :
    (dbmsTick cfgs now lr).lastRun n = lr n := by
  induction cfgs generalizing lr with
  | nil => rfl
  | cons cfg rest ih =>
    have hn : n ≠ cfg.name ∧ n ∉ rest.map (fun c => c.name) := by
      simpa using h
    rw [dbmsTick]
    by_cases hcond : cfg.frequency_seconds ≤ now - lr cfg.name
    · rw [if_pos hcond]
      have := ih (fun m => if m = cfg.name then now else lr m) hn.2
      simpa [hn.1] using this
    · rw [if_neg hcond]
      exact ih lr hn.2

theorem dbmsTick_dispatch_iff (cfgs : List MonitoringMetricConfig)
    (now : Int) (lr : String → Int)
    (hnd : (cfgs.map (fun c => c.name)).Nodup)
    (c : MonitoringMetricConfig) (hmem : c ∈ cfgs) :
    (c ∈ (dbmsTick cfgs now lr).dispatched ↔
      c.frequency_seconds ≤ now - lr c.name) ∧
    ((dbmsTick cfgs now lr).lastRun c.name
      = if c.frequency_seconds ≤ now - lr c.name then now else lr c.name) := by
  induction cfgs generalizing lr with
  | nil => cases hmem
  | cons cfg rest ih =>
    have hhead : cfg.name ∉ rest.map (fun x => x.name) :=
      (List.nodup_cons.mp hnd).1
    have htail : (rest.map (fun x => x.name)).Nodup :=
      (List.nodup_cons.mp hnd).2
    rcases List.mem_cons.mp hmem with rfl | hmem'
    · by_cases hcond : c.frequency_seconds ≤ now - lr c.name
      · constructor
        · rw [dbmsTick, if_pos hcond]
          exact iff_of_true (List.mem_cons_self _ _) hcond
        · rw [dbmsTick, if_pos hcond, if_pos hcond]
          have hupd := dbmsTick_lastRun_not_mem rest now
            (fun m => if m = c.name then now else lr m) c.name hhead
          simpa using hupd
      · constructor
        · rw [dbmsTick, if_neg hcond]
          constructor
          · intro habs
            have hsub := dbmsTick_dispatched_subset rest now lr c habs
            exact absurd (List.mem_map_of_mem (fun x => x.name) hsub) hhead
          · intro habs
            exact absurd habs hcond
        · rw [dbmsTick, if_neg hcond, if_neg hcond]
          exact dbmsTick_lastRun_not_mem rest now lr c.name hhead
    · have hcn : c.name ∈ rest.map (fun x => x.name) :=
        List.mem_map_of_mem (fun x => x.name) hmem'
      have hne : c.name ≠ cfg.name := fun he => hhead (he ▸ hcn)
      have hcne : c ≠ cfg := fun he => hne (he ▸ rfl)
      by_cases hcond : cfg.frequency_seconds ≤ now - lr cfg.name
      · have ihr := ih (fun m => if m = cfg.name then now else lr m) htail hmem'
        beta_reduce at ihr
        rw [if_neg hne] at ihr
        constructor
        · rw [dbmsTick, if_pos hcond]
          constructor
          · intro hmemd
            rcases List.mem_cons.mp hmemd with he | hm
            · exact absurd he hcne
            · exact ihr.1.mp hm
          · intro hfreq
            exact List.mem_cons_of_mem _ (ihr.1.mpr hfreq)
        · rw [dbmsTick, if_pos hcond]
          exact ihr.2
      · rw [dbmsTick, if_neg hcond]
        exact ih lr htail hmem'

theorem dbmsTick_single (cfg : MonitoringMetricConfig) (now : Int)
    (lr : String → Int) :
    dbmsTick [cfg] now lr
      = if cfg.frequency_seconds ≤ now - lr cfg.name
        then { lastRun := fun n => if n = cfg.name then now else lr n,
               dispatched := [cfg] }
        else { lastRun := lr, dispatched := [] } := by
  rw [dbmsTick]
  split <;> rfl

theorem monitorTicksLastRun_formula (cfg : MonitoringMetricConfig) (t0 : Int)
    (hfreq : cfg.frequency_seconds = 10) (ht0 : 10 ≤ t0) (k : ℕ) :
    monitorTicksLastRun cfg t0 1 (k + 1) cfg.name
      = t0 + 10 * ((k / 10 : ℕ) : ℤ) := by
  induction k with
  | zero =>
    have h0 : monitorTicksLastRun cfg t0 1 0 cfg.name = 0 := rfl
    rw [monitorTicksLastRun, dbmsTick_single, hfreq]
    rw [if_pos (by rw [h0]; omega)]
    simp
  | succ k ih =>
    have hstep : monitorTicksLastRun cfg t0 1 (k + 1 + 1) cfg.name
        = if (10 : ℤ) ≤ t0 + 1 * ((k : ℕ) + 1 : ℕ)
              - monitorTicksLastRun cfg t0 1 (k + 1) cfg.name
          then t0 + 1 * ((k : ℕ) + 1 : ℕ)
          else monitorTicksLastRun cfg t0 1 (k + 1) cfg.name := by
      rw [monitorTicksLastRun, dbmsTick_single, hfreq]
      split_ifs with h
      · simp
      · rfl
    rw [hstep, ih]
    split_ifs with h <;> omega

theorem dispatchesAtTick_iff_mod (cfg : MonitoringMetricConfig) (t0 : Int)
    (hfreq : cfg.frequency_seconds = 10) (ht0 : 10 ≤ t0) (k : ℕ) :
    (dispatchesAtTick cfg t0 1 k = true ↔ k % 10 = 0) := by
  cases k with
  | zero =>
    have h0 : monitorTicksLastRun cfg t0 1 0 cfg.name = 0 := rfl
    rw [dispatchesAtTick, dbmsTick_single, hfreq]
    rw [if_pos (by rw [h0]; omega)]
    simp
  | succ k =>
    rw [dispatchesAtTick, dbmsTick_single, hfreq,
      monitorTicksLastRun_formula cfg t0 hfreq ht0 k]
    split_ifs with h
    · simpa using by omega
    · simpa using by omega

end SqlSim

/-- C3: on each tick of the base sampling interval a configured database
metric's query is dispatched if and only if `now - last_run[name] ≥
frequency`, and `last_run[name]` is then set to the dispatch time `now`
(unchanged otherwise); consequently a single metric with frequency 10 and
base interval 1, starting from the `last_run = 0` initialisation and an
epoch start time `t0 ≥ 10`, is dispatched exactly on ticks 0, 10, 20, ... -/
theorem C3_dbms_metric_cadence :
    (∀ (cfgs : List SqlSim.MonitoringMetricConfig) (now : ℤ) (lr : String → ℤ)
        (c : SqlSim.MonitoringMetricConfig),
      (cfgs.map (fun x => x.name)).Nodup → c ∈ cfgs →
      ((c ∈ (SqlSim.dbmsTick cfgs now lr).dispatched ↔
          c.frequency_seconds ≤ now - lr c.name) ∧
        (SqlSim.dbmsTick cfgs now lr).lastRun c.name
          = if c.frequency_seconds ≤ now - lr c.name then now else lr c.name)) ∧
    (∀ (cfg : SqlSim.MonitoringMetricConfig) (t0 : ℤ) (k : ℕ),
      cfg.frequency_seconds = 10 → 10 ≤ t0 →
      (SqlSim.dispatchesAtTick cfg t0 1 k = true ↔ k % 10 = 0)) :=
  ⟨fun cfgs now lr c hnd hmem => SqlSim.dbmsTick_dispatch_iff cfgs now lr hnd c hmem,
   fun cfg t0 k hfreq ht0 => SqlSim.dispatchesAtTick_iff_mod cfg t0 hfreq ht0 k⟩

/-- Witness for C3: one metric named "dmv" at frequency 10, base interval 1,
epoch start 100; tick-level dispatch at tick 0 and the iff at ticks 10, 3. -/
theorem C3_witness :
    ((([{ name := "dmv", query := "SELECT 1", frequency_seconds := 10 }]
        : List SqlSim.MonitoringMetricConfig).map (fun x => x.name)).Nodup ∧
      ({ name := "dmv", query := "SELECT 1", frequency_seconds := 10 }
        : SqlSim.MonitoringMetricConfig)
        ∈ [{ name := "dmv", query := "SELECT 1", frequency_seconds := 10 }]) ∧
    (({ name := "dmv", query := "SELECT 1", frequency_seconds := 10 }
        : SqlSim.MonitoringMetricConfig)
      ∈ (SqlSim.dbmsTick [{ name := "dmv", query := "SELECT 1", frequency_seconds := 10 }]
          100 (fun _ => 0)).dispatched ↔
        (10 : ℤ) ≤ 100 - 0) ∧
    (SqlSim.dispatchesAtTick
        { name := "dmv", query := "SELECT 1", frequency_seconds := 10 } 100 1 10 = true
      ↔ 10 % 10 = 0) ∧
    (SqlSim.dispatchesAtTick
        { name := "dmv", query := "SELECT 1", frequency_seconds := 10 } 100 1 3 = true
      ↔ 3 % 10 = 0) := by
  refine ⟨⟨by decide, by simp⟩, ?_, ?_, ?_⟩
  · exact (C3_dbms_metric_cadence.1
      [{ name := "dmv", query := "SELECT 1", frequency_seconds := 10 }] 100 (fun _ => 0)
      { name := "dmv", query := "SELECT 1", frequency_seconds := 10 }
      (by decide) (by simp)).1
  · exact C3_dbms_metric_cadence.2
      { name := "dmv", query := "SELECT 1", frequency_seconds := 10 } 100 10 rfl (by norm_num)
  · exact C3_dbms_metric_cadence.2
      { name := "dmv", query := "SELECT 1", frequency_seconds := 10 } 100 3 rfl (by norm_num)

namespace SqlSim

theorem runWorkloadLoop_iters_errors (wname : String)
    (pool : List QueryDefinition) (stop ok : ℕ → Bool) (pick : ℕ → ℕ)
    (exc : ℕ → Option String) (params : ℕ → List ParamValue)
    (res : ℕ → QueryResult) (perf : ℕ → ℚ × ℚ) (now : ℕ → Int)
    (hpool : pool ≠ []) :
    ∀ (fuel i : ℕ) (sink : List QueryExecutionMetric) (errlog : List String),
      (runWorkloadLoop wname pool stop ok pick exc params res perf now
          i fuel sink errlog).2.2
        = loopIterCount stop ok i fuel ∧
      (runWorkloadLoop wname pool stop ok pick exc params res perf now
          i fuel sink errlog).2.1
        = errlog ++ (List.range' i (loopIterCount stop ok i fuel)).filterMap exc := by
  intro fuel
  induction fuel with
  | zero =>
    intro i sink errlog
    exact ⟨rfl, by simp [runWorkloadLoop, loopIterCount]⟩
  | succ fuel ih =>
    intro i sink errlog
    have hlen : 0 < pool.length := List.length_pos.mpr hpool
    have hlt : pick i % pool.length < pool.length := Nat.mod_lt _ hlen
    have hget : pool.get? (pick i % pool.length)
        = some (pool.get ⟨pick i % pool.length, hlt⟩) := List.get?_eq_get hlt
    rw [runWorkloadLoop, loopIterCount]
    by_cases hguard : (!stop i && ok i) = true
    · rw [if_pos hguard, if_pos hguard, hget]
      cases hexc : exc i with
      | none =>
        have hrec := ih (i + 1)
          (executeSingleQueryInstance wname (pool.get ⟨pick i % pool.length, hlt⟩)
            (params i) (res i) (perf i).1 (perf i).2 (now i) sink) errlog
        refine ⟨?_, ?_⟩
        · simp only [bumpIterCount]
          rw [hrec.1]
        · simp only [bumpIterCount]
          rw [hrec.2, List.range'_succ, List.filterMap_cons, hexc]
      | some e =>
        have hrec := ih (i + 1) sink (errlog ++ [e])
        refine ⟨?_, ?_⟩
        · simp only [bumpIterCount]
          rw [hrec.1]
        · simp only [bumpIterCount]
          rw [hrec.2, List.range'_succ, List.filterMap_cons, hexc,
            List.append_assoc]
          rfl
    · rw [if_neg hguard, if_neg hguard]
      exact ⟨rfl, by simp⟩

end SqlSim

/-- C6: an exception raised while executing one query inside a workload task
is caught and logged and the loop runs on, so the number of iterations a
task executes depends only on the stop signal and the duration guard, never
on which iterations raised; every caught exception message is appended to
the error log in iteration order; and `run_all_workloads` gathers completed
task results with `return_exceptions=True`, so task failures are collected,
never propagated. -/
theorem C6_exception_isolation
    (wname : String) (pool : List SqlSim.QueryDefinition)
    (stop ok : ℕ → Bool) (pick : ℕ → ℕ) (exc1 exc2 : ℕ → Option String)
    (params : ℕ → List SqlSim.ParamValue) (res : ℕ → SqlSim.QueryResult)
    (perf : ℕ → ℚ × ℚ) (now : ℕ → Int) (fuel i : ℕ)
    (sink : List SqlSim.QueryExecutionMetric) (errlog : List String)
    (hpool : pool ≠ []) :
    ((SqlSim.runWorkloadLoop wname pool stop ok pick exc1 params res perf now
        i fuel sink errlog).2.2
      = (SqlSim.runWorkloadLoop wname pool stop ok pick exc2 params res perf now
        i fuel sink errlog).2.2) ∧
    ((SqlSim.runWorkloadLoop wname pool stop ok pick exc1 params res perf now
        i fuel sink errlog).2.2 = SqlSim.loopIterCount stop ok i fuel) ∧
    ((SqlSim.runWorkloadLoop wname pool stop ok pick exc1 params res perf now
        i fuel sink errlog).2.1
      = errlog ++ (List.range' i (SqlSim.loopIterCount stop ok i fuel)).filterMap exc1) ∧
    (∀ taskResults : List (Except String Unit),
      SqlSim.runAllWorkloadsGather taskResults = Except.ok taskResults) := by
  have h1 := SqlSim.runWorkloadLoop_iters_errors wname pool stop ok pick exc1
    params res perf now hpool fuel i sink errlog
  have h2 := SqlSim.runWorkloadLoop_iters_errors wname pool stop ok pick exc2
    params res perf now hpool fuel i sink errlog
  exact ⟨h1.1.trans h2.1.symm, h1.1, h1.2, fun taskResults => rfl⟩

/-- Witness for C6: a one-query pool, stop signal set from iteration 2 on,
an exception at iteration 0; iteration count and error log evaluated. -/
theorem C6_witness :
    ([{ name := "q", template := "SELECT 1" }] : List SqlSim.QueryDefinition) ≠ [] ∧
    ((SqlSim.runWorkloadLoop "w" [{ name := "q", template := "SELECT 1" }]
        (fun i => decide (2 ≤ i)) (fun _ => true) (fun _ => 0)
        (fun i => if i = 0 then some "boom" else none)
        (fun _ => []) (fun _ => SqlSim.QueryResult.rowcount 1)
        (fun _ => (0, 1)) (fun _ => 0) 0 5 [] []).2.2
      = (SqlSim.runWorkloadLoop "w" [{ name := "q", template := "SELECT 1" }]
        (fun i => decide (2 ≤ i)) (fun _ => true) (fun _ => 0)
        (fun _ => none)
        (fun _ => []) (fun _ => SqlSim.QueryResult.rowcount 1)
        (fun _ => (0, 1)) (fun _ => 0) 0 5 [] []).2.2) ∧
    ((SqlSim.runWorkloadLoop "w" [{ name := "q", template := "SELECT 1" }]
        (fun i => decide (2 ≤ i)) (fun _ => true) (fun _ => 0)
        (fun i => if i = 0 then some "boom" else none)
        (fun _ => []) (fun _ => SqlSim.QueryResult.rowcount 1)
        (fun _ => (0, 1)) (fun _ => 0) 0 5 [] []).2.2
      = SqlSim.loopIterCount (fun i => decide (2 ≤ i)) (fun _ => true) 0 5) ∧
    ((SqlSim.runWorkloadLoop "w" [{ name := "q", template := "SELECT 1" }]
        (fun i => decide (2 ≤ i)) (fun _ => true) (fun _ => 0)
        (fun i => if i = 0 then some "boom" else none)
        (fun _ => []) (fun _ => SqlSim.QueryResult.rowcount 1)
        (fun _ => (0, 1)) (fun _ => 0) 0 5 [] []).2.1
      = [] ++ (List.range' 0 (SqlSim.loopIterCount
          (fun i => decide (2 ≤ i)) (fun _ => true) 0 5)).filterMap
          (fun i => if i = 0 then some "boom" else none)) ∧
    (∀ taskResults : List (Except String Unit),
      SqlSim.runAllWorkloadsGather taskResults = Except.ok taskResults) ∧
    SqlSim.loopIterCount (fun i => decide (2 ≤ i)) (fun _ => true) 0 5 = 2 ∧
    (List.range' 0 (SqlSim.loopIterCount
        (fun i => decide (2 ≤ i)) (fun _ => true) 0 5)).filterMap
        (fun i => if i = 0 then some "boom" else none) = ["boom"] := by
  have h := C6_exception_isolation "w" [{ name := "q", template := "SELECT 1" }]
    (fun i => decide (2 ≤ i)) (fun _ => true) (fun _ => 0)
    (fun i => if i = 0 then some "boom" else none) (fun _ => none)
    (fun _ => []) (fun _ => SqlSim.QueryResult.rowcount 1)
    (fun _ => (0, 1)) (fun _ => 0) 5 0 [] [] (by decide)
  exact ⟨by decide, h.1, h.2.1, h.2.2.1, h.2.2.2, by decide, by decide⟩

/-- C10: a workload whose weight-expanded query pool is empty returns at
once: whatever the stop-signal and duration oracles say, the task performs
zero iterations, leaves the metric sink untouched and logs no error. -/
theorem C10_empty_pool_returns_immediately
    (cfg : SqlSim.WorkloadConfig) (stop ok : ℕ → Bool) (pick : ℕ → ℕ)
    (exc : ℕ → Option String) (params : ℕ → List SqlSim.ParamValue)
    (res : ℕ → SqlSim.QueryResult) (perf : ℕ → ℚ × ℚ) (now : ℕ → Int)
    (fuel : ℕ) (sink : List SqlSim.QueryExecutionMetric) (errlog : List String)
    (hempty : SqlSim.buildWeightedPool cfg.queries = []) :
    SqlSim.runWorkloadTask cfg stop ok pick exc params res perf now fuel
      sink errlog = (sink, errlog, 0) := by
  rw [SqlSim.runWorkloadTask]
  simp [hempty]

/-- Witness for C10: a workload holding one query of weight 0 (an empty
pool), a never-set stop signal and a long duration. -/
theorem C10_witness :
    SqlSim.buildWeightedPool
      ({ name := "w0", type := "OLTP",
         queries := [{ name := "q", template := "SELECT 1", weight := 0 }] }
        : SqlSim.WorkloadConfig).queries = [] ∧
    SqlSim.runWorkloadTask
      { name := "w0", type := "OLTP",
        queries := [{ name := "q", template := "SELECT 1", weight := 0 }] }
      (fun _ => false) (fun _ => true) (fun _ => 0) (fun _ => none)
      (fun _ => []) (fun _ => SqlSim.QueryResult.rowcount 1)
      (fun _ => (0, 1)) (fun _ => 0) 1000 [] [] = ([], [], 0) :=
  ⟨by decide,
   C10_empty_pool_returns_immediately
     { name := "w0", type := "OLTP",
       queries := [{ name := "q", template := "SELECT 1", weight := 0 }] }
     (fun _ => false) (fun _ => true) (fun _ => 0) (fun _ => none)
     (fun _ => []) (fun _ => SqlSim.QueryResult.rowcount 1)
     (fun _ => (0, 1)) (fun _ => 0) 1000 [] [] (by decide)⟩

namespace SqlSim

theorem readDbmsLines_eq_spec (f : Option String) (lines : List LogLine)
    (hsafe : ∀ line ∈ lines, lineAborts f line = false) :
    readDbmsLines f lines
      = (lines.filterMap specParseLine).filter
          (fun rec => some rec.metric_name == f || f.isNone) := by
  induction lines with
  | nil => rfl
  | cons line rest ih =>
    have hrest : ∀ l ∈ rest, lineAborts f l = false :=
      fun l hl => hsafe l (List.mem_cons_of_mem _ hl)
    have ihr := ih hrest
    cases line with
    | decodeError =>
      rw [readDbmsLines, List.filterMap_cons]
      simpa [specParseLine] using ihr
    | nonDict =>
      have := hsafe _ (List.mem_cons_self _ _)
      simp [lineAborts] at this
    | entry mn ts d =>
      rw [readDbmsLines, List.filterMap_cons]
      by_cases hm : lineMatchesFilter mn f = true
      · rw [if_pos hm]
        cases mn with
        | none =>
          simp only [constructRecord, specParseLine]
          exact ihr
        | some n =>
          cases ts with
          | missing =>
            simp only [constructRecord, specParseLine]
            exact ihr
          | badType =>
            simp only [constructRecord, specParseLine]
            exact ihr
          | badFormat =>
            have := hsafe _ (List.mem_cons_self _ _)
            rw [lineAborts, hm] at this
            simp at this
          | val t =>
            cases d with
            | none =>
              simp only [constructRecord, specParseLine]
              exact ihr
            | some dd =>
              simp only [constructRecord, specParseLine]
              rw [List.filter_cons]
              rw [if_pos (show (some ({ metric_name := n, timestamp := t, data := dd }
                  : DBMSMetricData).metric_name == f || f.isNone) = true from hm), ihr]
      · rw [if_neg hm]
        cases mn with
        | none =>
          cases ts with
          | missing => simpa [specParseLine] using ihr
          | badType => simpa [specParseLine] using ihr
          | badFormat => simpa [specParseLine] using ihr
          | val t =>
            cases d with
            | none => simpa [specParseLine] using ihr
            | some dd => simpa [specParseLine] using ihr
        | some n =>
          cases ts with
          | missing => simpa [specParseLine] using ihr
          | badType => simpa [specParseLine] using ihr
          | badFormat => simpa [specParseLine] using ihr
          | val t =>
            cases d with
            | none => simpa [specParseLine] using ihr
            | some dd =>
              simp only [specParseLine]
              rw [List.filter_cons]
              rw [if_neg (show ¬(some ({ metric_name := n, timestamp := t, data := dd }
                  : DBMSMetricData).metric_name == f || f.isNone) = true from hm), ihr]

end SqlSim

/-- C7 counterexample: with filter "m", a file holding a well-formed
matching record, then a matching line whose timestamp string is not ISO
format (`ValueError`, which the inner `except (JSONDecodeError, KeyError,
TypeError)` does not catch), then another well-formed matching record, the
read-back stops at the bad line and drops the later record, so it does not
return all matching records with only the unparsable line skipped. -/
theorem C7_counterexample :
    SqlSim.getCollectedDbmsMetrics (some "m")
      (some [SqlSim.LogLine.entry (some "m") (SqlSim.TsField.val 5) (some [("v", "1")]),
             SqlSim.LogLine.entry (some "m") SqlSim.TsField.badFormat (some [("v", "2")]),
             SqlSim.LogLine.entry (some "m") (SqlSim.TsField.val 7) (some [("v", "3")])])
      = [{ metric_name := "m", timestamp := 5, data := [("v", "1")] }] ∧
    SqlSim.specReadDbmsMetrics (some "m")
      (some [SqlSim.LogLine.entry (some "m") (SqlSim.TsField.val 5) (some [("v", "1")]),
             SqlSim.LogLine.entry (some "m") SqlSim.TsField.badFormat (some [("v", "2")]),
             SqlSim.LogLine.entry (some "m") (SqlSim.TsField.val 7) (some [("v", "3")])])
      = [{ metric_name := "m", timestamp := 5, data := [("v", "1")] },
         { metric_name := "m", timestamp := 7, data := [("v", "3")] }] ∧
    SqlSim.getCollectedDbmsMetrics (some "m")
      (some [SqlSim.LogLine.entry (some "m") (SqlSim.TsField.val 5) (some [("v", "1")]),
             SqlSim.LogLine.entry (some "m") SqlSim.TsField.badFormat (some [("v", "2")]),
             SqlSim.LogLine.entry (some "m") (SqlSim.TsField.val 7) (some [("v", "3")])])
      ≠ SqlSim.specReadDbmsMetrics (some "m")
      (some [SqlSim.LogLine.entry (some "m") (SqlSim.TsField.val 5) (some [("v", "1")]),
             SqlSim.LogLine.entry (some "m") SqlSim.TsField.badFormat (some [("v", "2")]),
             SqlSim.LogLine.entry (some "m") (SqlSim.TsField.val 7) (some [("v", "3")])]) := by
  refine ⟨rfl, rfl, ?_⟩
  decide

/-- C7 as amended: the read-back returns exactly the well-formed records
whose `metric_name` matches the filter (all of them when no filter is
given), in file order, skipping lines with JSON-decode, missing-key or
wrong-type defects — provided no line makes the loop abort, i.e. no
non-dict JSON line and no filter-matching line whose timestamp string
raises `ValueError` (such a line ends the read early, keeping only the
records collected before it); a missing file yields the empty list. -/
theorem C7_amended_filtered_read_back (metric_name_filter : Option String)
    (file : Option (List SqlSim.LogLine))
    (hsafe : ∀ lines, file = some lines →
      ∀ line ∈ lines, SqlSim.lineAborts metric_name_filter line = false) :
    SqlSim.getCollectedDbmsMetrics metric_name_filter file
      = SqlSim.specReadDbmsMetrics metric_name_filter file ∧
    SqlSim.getCollectedDbmsMetrics metric_name_filter none = [] := by
  refine ⟨?_, rfl⟩
  cases file with
  | none => rfl
  | some lines =>
    exact SqlSim.readDbmsLines_eq_spec metric_name_filter lines (hsafe lines rfl)

/-- Witness for C7 (amended): a four-line file mixing a matching record, a
decode error, a non-matching record and a missing-key line, under filter
"cpu". -/
theorem C7_witness :
    (∀ lines, (some [SqlSim.LogLine.entry (some "cpu") (SqlSim.TsField.val 1) (some [("p", "9")]),
        SqlSim.LogLine.decodeError,
        SqlSim.LogLine.entry (some "io") (SqlSim.TsField.val 2) (some [("p", "8")]),
        SqlSim.LogLine.entry (some "cpu") SqlSim.TsField.missing (some [("p", "7")]),
        SqlSim.LogLine.entry (some "cpu") (SqlSim.TsField.val 3) (some [("p", "6")])]
          : Option (List SqlSim.LogLine)) = some lines →
      ∀ line ∈ lines, SqlSim.lineAborts (some "cpu") line = false) ∧
    SqlSim.getCollectedDbmsMetrics (some "cpu")
      (some [SqlSim.LogLine.entry (some "cpu") (SqlSim.TsField.val 1) (some [("p", "9")]),
        SqlSim.LogLine.decodeError,
        SqlSim.LogLine.entry (some "io") (SqlSim.TsField.val 2) (some [("p", "8")]),
        SqlSim.LogLine.entry (some "cpu") SqlSim.TsField.missing (some [("p", "7")]),
        SqlSim.LogLine.entry (some "cpu") (SqlSim.TsField.val 3) (some [("p", "6")])])
      = SqlSim.specReadDbmsMetrics (some "cpu")
      (some [SqlSim.LogLine.entry (some "cpu") (SqlSim.TsField.val 1) (some [("p", "9")]),
        SqlSim.LogLine.decodeError,
        SqlSim.LogLine.entry (some "io") (SqlSim.TsField.val 2) (some [("p", "8")]),
        SqlSim.LogLine.entry (some "cpu") SqlSim.TsField.missing (some [("p", "7")]),
        SqlSim.LogLine.entry (some "cpu") (SqlSim.TsField.val 3) (some [("p", "6")])]) ∧
    SqlSim.getCollectedDbmsMetrics (some "cpu") none = [] ∧
    SqlSim.specReadDbmsMetrics (some "cpu")
      (some [SqlSim.LogLine.entry (some "cpu") (SqlSim.TsField.val 1) (some [("p", "9")]),
        SqlSim.LogLine.decodeError,
        SqlSim.LogLine.entry (some "io") (SqlSim.TsField.val 2) (some [("p", "8")]),
        SqlSim.LogLine.entry (some "cpu") SqlSim.TsField.missing (some [("p", "7")]),
        SqlSim.LogLine.entry (some "cpu") (SqlSim.TsField.val 3) (some [("p", "6")])])
      = [{ metric_name := "cpu", timestamp := 1, data := [("p", "9")] },
         { metric_name := "cpu", timestamp := 3, data := [("p", "6")] }] := by
  have h := C7_amended_filtered_read_back (some "cpu")
    (some [SqlSim.LogLine.entry (some "cpu") (SqlSim.TsField.val 1) (some [("p", "9")]),
      SqlSim.LogLine.decodeError,
      SqlSim.LogLine.entry (some "io") (SqlSim.TsField.val 2) (some [("p", "8")]),
      SqlSim.LogLine.entry (some "cpu") SqlSim.TsField.missing (some [("p", "7")]),
      SqlSim.LogLine.entry (some "cpu") (SqlSim.TsField.val 3) (some [("p", "6")])])
    (by intro lines hl; cases hl; decide)
  exact ⟨by intro lines hl; cases hl; decide, h.1, h.2, rfl⟩

/-- C8 counterexample: a dispatch whose query returns two rows builds each
record with its own `datetime.now()` call; under a clock that advances
between calls the two records carry different timestamps, so the records of
one dispatch do not all share a single (completion) timestamp. -/
theorem C8_counterexample :
    ¬(∀ a ∈ SqlSim.collectOneDbmsMetric "m"
        (some [[("v", "1")], [("v", "2")]]) (fun n => (n : ℤ)) 0,
      ∀ b ∈ SqlSim.collectOneDbmsMetric "m"
        (some [[("v", "1")], [("v", "2")]]) (fun n => (n : ℤ)) 0,
      a.timestamp = b.timestamp) := by
  decide

/-- C8 as amended: a dispatch whose results arrive emits exactly one
`DBMSMetricData` record per result row, each tagged with the metric's
configured name and carrying its row's data; the `i`-th record's timestamp
is the dispatch's `(c+i)`-th `datetime.now()` sample, taken at record
creation, so the records of one dispatch need not share one timestamp; a
`None` result emits nothing. -/
theorem C8_one_record_per_row (name : String) (rows : List SqlSim.Row)
    (clock : ℕ → ℤ) (c : ℕ) :
    (SqlSim.collectOneDbmsMetric name (some rows) clock c).length = rows.length ∧
    (∀ i : ℕ, (SqlSim.collectOneDbmsMetric name (some rows) clock c).get? i
      = (rows.get? i).map (fun row =>
          { metric_name := name, timestamp := clock (c + i), data := row })) ∧
    SqlSim.collectOneDbmsMetric name none clock c = [] := by
  refine ⟨?_, ?_, rfl⟩
  · show (SqlSim.collectRowsLoop name rows clock c).length = rows.length
    induction rows generalizing c with
    | nil => rfl
    | cons row rest ih =>
      rw [SqlSim.collectRowsLoop, List.length_cons, List.length_cons, ih]
  · intro i
    show (SqlSim.collectRowsLoop name rows clock c).get? i = _
    induction rows generalizing c i with
    | nil => cases i <;> rfl
    | cons row rest ih =>
      cases i with
      | zero => rfl
      | succ j =>
        rw [SqlSim.collectRowsLoop]
        show (SqlSim.collectRowsLoop name rest clock (c + 1)).get? j = _
        rw [ih (c + 1) j]
        have : c + 1 + j = c + (j + 1) := by omega
        rw [this]
        rfl

/-- C9: the Resource Sampler's start/stop protocol.  `start()` while the
monitoring thread is alive is a no-op (same state, no new loop started);
`stop()` while running sets the cooperative stop event, clears the thread
slot, and records the bounded-join outcome only as the non-fatal
"did not stop in time" warning flag; and after any `stop()` a subsequent
`start()` starts exactly one fresh monitoring loop and leaves the sampler
running. -/
theorem C9_monitor_start_stop_protocol :
    (∀ st : SqlSim.MonitorState, SqlSim.monitorIsRunning st = true →
      SqlSim.startMonitoring st = st) ∧
    (∀ (st : SqlSim.MonitorState) (e : Bool), SqlSim.monitorIsRunning st = true →
      (SqlSim.stopMonitoring st e).stopSet = true ∧
      (SqlSim.stopMonitoring st e).threadAlive = none ∧
      (SqlSim.stopMonitoring st e).anomalyLogged = (st.anomalyLogged || !e)) ∧
    (∀ (st : SqlSim.MonitorState) (e : Bool),
      SqlSim.monitorIsRunning (SqlSim.startMonitoring (SqlSim.stopMonitoring st e))
        = true ∧
      (SqlSim.startMonitoring (SqlSim.stopMonitoring st e)).loopsStarted
        = (SqlSim.stopMonitoring st e).loopsStarted + 1) := by
  refine ⟨?_, ?_, ?_⟩
  · intro st hrun
    rw [SqlSim.startMonitoring, if_pos hrun]
  · intro st e hrun
    rw [SqlSim.stopMonitoring, if_pos hrun]
    exact ⟨rfl, rfl, rfl⟩
  · intro st e
    have hstopped : SqlSim.monitorIsRunning (SqlSim.stopMonitoring st e) = false := by
      rw [SqlSim.stopMonitoring]
      by_cases hrun : SqlSim.monitorIsRunning st = true
      · rw [if_pos hrun]
        rfl
      · rw [if_neg hrun]
        exact Bool.eq_false_iff.mpr hrun
    constructor
    · rw [SqlSim.startMonitoring, if_neg (by rw [hstopped]; exact Bool.false_ne_true)]
      rfl
    · rw [SqlSim.startMonitoring, if_neg (by rw [hstopped]; exact Bool.false_ne_true)]

/-- Witness for C9: a running sampler (alive thread, one loop started), a
stop whose loop exits in time, and a restart. -/
theorem C9_witness :
    SqlSim.monitorIsRunning
      { threadAlive := some true, stopSet := false,
        loopsStarted := 1, anomalyLogged := false } = true ∧
    SqlSim.startMonitoring
      { threadAlive := some true, stopSet := false,
        loopsStarted := 1, anomalyLogged := false }
      = { threadAlive := some true, stopSet := false,
          loopsStarted := 1, anomalyLogged := false } ∧
    (SqlSim.stopMonitoring
      { threadAlive := some true, stopSet := false,
        loopsStarted := 1, anomalyLogged := false } true).stopSet = true ∧
    SqlSim.monitorIsRunning (SqlSim.startMonitoring (SqlSim.stopMonitoring
      { threadAlive := some true, stopSet := false,
        loopsStarted := 1, anomalyLogged := false } true)) = true ∧
    (SqlSim.startMonitoring (SqlSim.stopMonitoring
      { threadAlive := some true, stopSet := false,
        loopsStarted := 1, anomalyLogged := false } true)).loopsStarted
      = (SqlSim.stopMonitoring
      { threadAlive := some true, stopSet := false,
        loopsStarted := 1, anomalyLogged := false } true).loopsStarted + 1 := by
  refine ⟨rfl, ?_, ?_, ?_, ?_⟩
  · exact C9_monitor_start_stop_protocol.1
      { threadAlive := some true, stopSet := false,
        loopsStarted := 1, anomalyLogged := false } rfl
  · exact (C9_monitor_start_stop_protocol.2.1
      { threadAlive := some true, stopSet := false,
        loopsStarted := 1, anomalyLogged := false } true rfl).1
  · exact (C9_monitor_start_stop_protocol.2.2
      { threadAlive := some true, stopSet := false,
        loopsStarted := 1, anomalyLogged := false } true).1
  · exact (C9_monitor_start_stop_protocol.2.2
      { threadAlive := some true, stopSet := false,
        loopsStarted := 1, anomalyLogged := false } true).2
